import Mathlib

/-!
Verification of the My-Little-Buffett indicator-scoring UI and the engine
contract it exposes.  Pure functions from the repository's TypeScript
sources are embedded as Lean definitions; numbers are modelled as `ℚ`
(or `ℤ`/`ℕ` where the source only handles integers) and JS strings as
`String` or `List Char`.  Backend engine pieces that are absent from the
repository snapshot are modelled from the specification and are marked
`Modelled from the spec:` in their doc comments.
-/

/-- Substring test on character lists: does `need` occur contiguously
inside `hay`? -/
def jsIncludesAux (hay need : List Char) : Bool :=
  if need.isPrefixOf hay then true
  else
    match hay with
    | [] => false
    | _ :: t => jsIncludesAux t need

/-- JS `String.prototype.includes`: `jsIncludes s sub` is true iff `sub`
occurs as a contiguous substring of `s`. -/
def jsIncludes (s sub : String) : Bool :=
  jsIncludesAux s.toList sub.toList

/-- Left-pad a decimal string with zeros up to length `f`
(used for the fractional part of `toFixed`). -/
def padZeros (s : String) (f : ℕ) : String :=
  String.mk (List.replicate (f - s.length) '0') ++ s

/-- JS `Number.prototype.toFixed` on a nonnegative rational: round
`x * 10^f` to the nearest integer (ties toward the larger integer, per the
ECMAScript specification) and print with `f` fraction digits. -/
def jsToFixedAux (x : ℚ) (f : ℕ) : String :=
  let n : ℕ := (⌊x * (10 : ℚ) ^ f + 1 / 2⌋).toNat
  let ip := n / 10 ^ f
  let fp := n % 10 ^ f
  if f = 0 then Nat.repr ip
  else Nat.repr ip ++ "." ++ padZeros (Nat.repr fp) f

/-- JS `Number.prototype.toFixed`, sign handled as in the ECMAScript
specification (negative inputs print a leading minus). -/
def jsToFixed (x : ℚ) (f : ℕ) : String :=
  if x < 0 then "-" ++ jsToFixedAux (-x) f else jsToFixedAux x f

namespace Utils

/-- `formatRatio` from `frontend/src/lib/shared/utils/index.ts`:
ratios of 999 and above display as the capped string. -/
def formatRatio (value : ℚ) (decimals : ℕ := 2) : String :=
  if value ≥ 999 then "999+배"
  else jsToFixed value decimals ++ "배"

/-- Keys of the signal-label dictionary used by `signalToKorean`
in `frontend/src/lib/shared/utils/index.ts`. -/
def signalMappingKeys : List String :=
  ["strong_buy", "buy", "hold", "caution", "sell", "strong_sell"]

/-- `signalToKorean` from `frontend/src/lib/shared/utils/index.ts`:
dictionary lookup with fallthrough to the raw signal string
(`mapping[signal] || signal`). -/
def signalToKorean (signal : String) : String :=
  if signal = "strong_buy" then "강력 매수"
  else if signal = "buy" then "매수"
  else if signal = "hold" then "관망"
  else if signal = "caution" then "주의"
  else if signal = "sell" then "매도"
  else if signal = "strong_sell" then "강력 매도"
  else signal

/-- `getScoreColor` from `frontend/src/lib/shared/utils/index.ts`
(bands at 80/60/40/20). -/
def getScoreColor (score : ℚ) : String :=
  if score ≥ 80 then "var(--signal-strong-buy)"
  else if score ≥ 60 then "var(--signal-buy)"
  else if score ≥ 40 then "var(--signal-hold)"
  else if score ≥ 20 then "var(--signal-sell)"
  else "var(--signal-strong-sell)"

end Utils

/-- The closed signal enumeration named by the specification
(spelled with underscores as in the code). -/
def claimedSignalEnum : List String :=
  ["strong_buy", "buy", "hold", "sell", "strong_sell", "disqualified"]

namespace ScreenerV2

/-- `getSignalColor` from `frontend/src/routes/screener/+page.svelte`:
classifies a signal string by substring tests on Korean display labels. -/
def getSignalColor (signal : String) : String :=
  if jsIncludes signal "S급" || jsIncludes signal "강력매수" then "signal-strong-buy"
  else if jsIncludes signal "A급" && jsIncludes signal "매수" then "signal-buy"
  else if jsIncludes signal "B급" && jsIncludes signal "매수" then "signal-buy-weak"
  else if jsIncludes signal "관망" then "signal-hold"
  else if jsIncludes signal "D급" || jsIncludes signal "매도" then "signal-sell"
  else if jsIncludes signal "F급" || jsIncludes signal "회피" then "signal-strong-sell"
  else if jsIncludes signal "투자부적격" then "signal-disqualified"
  else "signal-neutral"

/-- `getScoreColor` from `frontend/src/routes/screener/+page.svelte`:
score bands at 90/80/65/50/35. -/
def getScoreColor (score : ℚ) : String :=
  if score ≥ 90 then "score-s"
  else if score ≥ 80 then "score-excellent"
  else if score ≥ 65 then "score-good"
  else if score ≥ 50 then "score-average"
  else if score ≥ 35 then "score-poor"
  else "score-bad"

/-- Rank of a score band, best = 5, for stating monotonicity of the
band mapping. -/
def bandRank (c : String) : ℕ :=
  if c = "score-s" then 5
  else if c = "score-excellent" then 4
  else if c = "score-good" then 3
  else if c = "score-average" then 2
  else if c = "score-poor" then 1
  else 0

/-- Numeric counterpart of `bandRank ∘ getScoreColor`. -/
def scoreRank (score : ℚ) : ℕ :=
  if score ≥ 90 then 5
  else if score ≥ 80 then 4
  else if score ≥ 65 then 3
  else if score ≥ 50 then 2
  else if score ≥ 35 then 1
  else 0

end ScreenerV2

namespace CompanyV2

/-- One indicator as rendered by the company analysis page
(the second document inside `frontend/src/routes/compare/+page.svelte`). -/
structure Indicator where
  name : String
  category : String
  value : ℚ
  score : ℚ
  max_score : ℚ
  grade : String
  description : String
deriving Repr, DecidableEq

/-- `AnalysisData` consumed by the company analysis page: company
identity, total score, signal string, filter verdict and reasons. -/
structure AnalysisData where
  corp_code : String
  corp_name : String
  year : String
  fs_div : String
  total_score : ℚ
  signal : String
  recommendation : String
  filter_passed : Bool
  filter_reasons : List String
  indicators : List Indicator
  analysis_date : String
deriving Repr, DecidableEq

/-- `getSignalColor` from the company analysis page: exact-match switch on
the Korean signal labels, including the disqualified label. -/
def getSignalColor (signal : String) : String :=
  if signal = "강력매수" then "signal-strong-buy"
  else if signal = "매수" then "signal-buy"
  else if signal = "관망" then "signal-hold"
  else if signal = "매도" then "signal-sell"
  else if signal = "강력매도" then "signal-strong-sell"
  else if signal = "투자부적격" then "signal-disqualified"
  else "signal-neutral"

/-- `formatValue` from the company analysis page: the 999 sentinel renders
as the infinity glyph, otherwise the value is formatted by indicator name. -/
def formatValue (indicator : Indicator) : String :=
  let val := indicator.value
  if val = 999 then "∞"
  else if jsIncludes indicator.name "배율" then jsToFixed val 1 ++ "배"
  else if jsIncludes indicator.name "률" || jsIncludes indicator.name "율"
      || jsIncludes indicator.name "비율" then jsToFixed val 1 ++ "%"
  else if jsIncludes indicator.name "창출력" then jsToFixed val 2 ++ "배"
  else jsToFixed val 1

/-- The score shown in the score card of the company analysis page:
`analysis.filter_passed ? analysis.total_score : 0`. -/
def displayedScore (a : AnalysisData) : ℚ :=
  if a.filter_passed then a.total_score else 0

/-- Modelled from the spec: the backend filter classifier (absent from the
repository snapshot; only its UI consumer is present) runs after scoring
and, when the company fails a hard filter, overrides the externally
visible signal with the disqualified label while retaining the computed
total score unchanged for diagnostics. -/
def applyFilterClassifier (a : AnalysisData) (passed : Bool)
    (reasons : List String) : AnalysisData :=
  { a with
    filter_passed := passed
    filter_reasons := reasons
    signal := if passed then a.signal else "투자부적격" }

end CompanyV2

namespace Watchlist

/-- `WatchlistItem` from `frontend/src/lib/shared/utils/watchlist.ts`. -/
structure WatchlistItem where
  corp_code : String
  corp_name : String
  stock_code : String
  added_at : String
deriving Repr, DecidableEq

/-- `addToWatchlist`: refuse (returning `false`) when an item with the
same `corp_code` is already stored, otherwise push one new item.  The
`now` argument stands for `new Date().toISOString()`. -/
def addToWatchlist (corp_code corp_name stock_code : String) (now : String)
    (list : List WatchlistItem) : Bool × List WatchlistItem :=
  if list.any (fun i => i.corp_code = corp_code) then (false, list)
  else (true, list ++ [⟨corp_code, corp_name, stock_code, now⟩])

/-- `removeFromWatchlist`: keep every item whose `corp_code` differs. -/
def removeFromWatchlist (corpCode : String) (list : List WatchlistItem) :
    List WatchlistItem :=
  list.filter (fun i => i.corp_code ≠ corpCode)

/-- A call against the stored watchlist. -/
inductive Op where
  | add (corp_code corp_name stock_code now : String)
  | remove (corpCode : String)

/-- Run a sequence of watchlist calls against a stored list. -/
def run (ops : List Op) (list : List WatchlistItem) : List WatchlistItem :=
  match ops with
  | [] => list
  | Op.add c n s t :: rest => run rest (addToWatchlist c n s t list).2
  | Op.remove c :: rest => run rest (removeFromWatchlist c list)

end Watchlist

namespace ApiClient

/-- `ApiResponse<T>` from `frontend/src/lib/shared/api/client.ts`;
`data: T | null` becomes `Option α`. -/
structure ApiResponse (α : Type) where
  success : Bool
  message : String
  data : Option α
deriving Repr, DecidableEq

/-- What a single `fetch` attempt can come back with: a rejected promise
(carrying an `Error` message, or not an `Error` at all), or an HTTP
response with its `ok` flag, status code, and the result of parsing its
body as JSON (`Except` error message on parse failure). -/
inductive FetchOutcome (α : Type) where
  | netError (msg : Option String)
  | response (ok : Bool) (status : ℕ) (body : Except String (ApiResponse α))

/-- `request` from `frontend/src/lib/shared/api/client.ts`: a non-`ok`
status throws inside the `try`, a body-parse failure throws inside the
`try`, and the `catch` converts any thrown error into a failed
`ApiResponse` with `data: null`. -/
def request {α : Type} (outcome : FetchOutcome α) : ApiResponse α :=
  match outcome with
  | FetchOutcome.netError (some msg) => ⟨false, msg, none⟩
  | FetchOutcome.netError none => ⟨false, "Unknown error", none⟩
  | FetchOutcome.response ok status body =>
    if ok then
      match body with
      | Except.ok r => r
      | Except.error msg => ⟨false, msg, none⟩
    else ⟨false, "HTTP error! status: " ++ toString status, none⟩

/-- The failure cases of the claim: network failure, non-2xx status, or
JSON parse failure (parse errors only matter on the `ok` path, where the
body is actually read). -/
def isFailure {α : Type} : FetchOutcome α → Bool
  | FetchOutcome.netError _ => true
  | FetchOutcome.response ok _ body =>
    !ok || (match body with | Except.error _ => true | Except.ok _ => false)

/-- The error text each failure case reports. -/
def failureMessage {α : Type} : FetchOutcome α → String
  | FetchOutcome.netError (some msg) => msg
  | FetchOutcome.netError none => "Unknown error"
  | FetchOutcome.response ok status body =>
    if ok then
      match body with
      | Except.error msg => msg
      | Except.ok _ => ""
    else "HTTP error! status: " ++ toString status

end ApiClient

namespace IndicatorCalc

/-- Raw statement line items an indicator calculator consumes; a missing
line item is `none`. -/
structure RawStatement where
  operating_cash_flow : Option ℚ
  net_income : Option ℚ
  operating_income : Option ℚ
  interest_expense : Option ℚ
  total_shares : Option ℚ
  convertible_shares : Option ℚ
deriving Repr, DecidableEq

/-- Modelled from the spec: the interest-coverage calculator (the backend
indicator calculators are absent from the repository snapshot; only their
display consumers `formatRatio` and `formatValue` are present).  It
divides operating income by interest expense and, on a missing or zero
denominator, returns the 999 sentinel instead of failing. -/
def interestCoverage (raw : RawStatement) : ℚ :=
  match raw.interest_expense with
  | none => 999
  | some e =>
    if e = 0 then 999
    else (raw.operating_income.getD 0) / e

end IndicatorCalc

namespace Dilution

/-- Grade bands of the dilution-ratio indicator named in
`src/README.md`: 0% is best, under 5% is tolerable, 10% or more is the
caution band. -/
inductive Band where
  | best
  | tolerable
  | caution
deriving Repr, DecidableEq

/-- Modelled from the spec: the dilution-ratio calculator (backend absent
from the repository snapshot) divides convertible shares by total issued
shares and scales to percent. -/
def dilutionRatioValue (convertible_shares total_shares : ℚ) : ℚ :=
  convertible_shares / total_shares * 100

/-- Modelled from the spec: the band table of `src/README.md` for the
dilution ratio — `0%` best, `< 5%` tolerable, `≥ 10%` caution; a value
matching none of the listed rules gets no labelled band. -/
def dilutionBand (v : ℚ) : Option Band :=
  if v = 0 then some Band.best
  else if v < 5 then some Band.tolerable
  else if v ≥ 10 then some Band.caution
  else none

end Dilution

namespace Backtest

/-- A screener pick fed into the backtest, as shown in the stocks table
of `frontend/src/routes/backtest/+page.svelte`. -/
structure Pick where
  corp_code : String
  corp_name : String
  stock_code : String
  total_score : ℚ
deriving Repr, DecidableEq

/-- Per-stock outcome of a backtest: either both prices and a return
rate, or an error string when price data is unavailable. -/
structure StockOutcome where
  corp_code : String
  corp_name : String
  stock_code : String
  total_score : ℚ
  buy_price : Option ℚ
  sell_price : Option ℚ
  return_rate : Option ℚ
  error : Option String
deriving Repr, DecidableEq

/-- Aggregate statistics of a backtest run, as consumed by the stat cards
of `frontend/src/routes/backtest/+page.svelte`. -/
structure Statistics where
  avg_return : ℚ
  kospi_return : ℚ
  alpha : ℚ
  win_rate : ℚ
  win_count : ℕ
  valid_stocks : ℕ
deriving Repr, DecidableEq

/-- A backtest run: per-stock outcomes plus aggregate statistics. -/
structure BacktestRun where
  stocks : List StockOutcome
  statistics : Statistics
deriving Repr, DecidableEq

/-- Modelled from the spec: evaluating one pick against the historical
price source.  With both prices the return rate is
`(sell − buy) / buy × 100`; with price data missing the entry carries an
error string and no return rate. -/
def evalStock (prices : String → Option (ℚ × ℚ)) (p : Pick) : StockOutcome :=
  match prices p.stock_code with
  | none =>
    { corp_code := p.corp_code, corp_name := p.corp_name
      stock_code := p.stock_code, total_score := p.total_score
      buy_price := none, sell_price := none, return_rate := none
      error := some "가격 데이터 없음" }
  | some (buy, sell) =>
    { corp_code := p.corp_code, corp_name := p.corp_name
      stock_code := p.stock_code, total_score := p.total_score
      buy_price := some buy, sell_price := some sell
      return_rate := some ((sell - buy) / buy * 100)
      error := none }

/-- Modelled from the spec: `backtest.validate` (backend absent from the
repository snapshot) takes the screener ranking's top `top_n` picks,
prices each against the historical price source, and aggregates only the
priced stocks: `valid_stocks` counts priced entries, `win_count` counts
positive returns, `win_rate = win_count / valid_stocks` when any stock is
priced and `0` otherwise, `alpha = avg_return − benchmark`. -/
def validate (ranked : List Pick) (top_n : ℕ)
    (prices : String → Option (ℚ × ℚ)) (kospi_return : ℚ) : BacktestRun :=
  let stocks := (ranked.take top_n).map (evalStock prices)
  let returns := stocks.filterMap (fun o => o.return_rate)
  let valid_stocks := returns.length
  let win_count := (returns.filter (fun r => 0 < r)).length
  let avg_return := if valid_stocks = 0 then 0 else returns.sum / valid_stocks
  let win_rate :=
    if 0 < valid_stocks then (win_count : ℚ) / valid_stocks else 0
  { stocks := stocks
    statistics :=
      { avg_return := avg_return
        kospi_return := kospi_return
        alpha := avg_return - kospi_return
        win_rate := win_rate
        win_count := win_count
        valid_stocks := valid_stocks } }

end Backtest

namespace ScreenerCache

/-- Parameters of a screener scan: year, statement basis, limit. -/
structure ScanParams where
  year : String
  fs_div : String
  limit : ℕ
deriving Repr, DecidableEq

/-- A screener result: the computed core payload of type `α` plus the
`from_cache` flag. -/
structure ScreenerResult (α : Type) where
  core : α
  from_cache : Bool
deriving Repr, DecidableEq

/-- The cache store: one aggregate entry per scan key. -/
def Cache (α : Type) : Type := List (ScanParams × α)

/-- Modelled from the spec: `screener.scan` (backend absent from the
repository snapshot; the UI drives it through `refreshData` and shows the
flag in the cache banner).  With `use_cache` set, a cached entry for the
key is served with `from_cache = true`; otherwise the engine recomputes,
stores the result, and returns it with `from_cache = false`. -/
def scan {α : Type} (compute : ScanParams → α) (cache : Cache α)
    (p : ScanParams) (use_cache : Bool) : ScreenerResult α × Cache α :=
  if use_cache then
    match cache.find? (fun e => e.1 = p) with
    | some e => (⟨e.2, true⟩, cache)
    | none =>
      let c := compute p
      (⟨c, false⟩, (p, c) :: cache)
  else
    let c := compute p
    (⟨c, false⟩, (p, c) :: cache)

end ScreenerCache

namespace AmountFormat

/-- JS whitespace test for `String.prototype.trim` (the characters that
can actually occur here are only plain spaces). -/
def isWs (c : Char) : Bool :=
  c == ' ' || c == '\t' || c == '\n' || c == '\r'

/-- Left half of JS `trim`. -/
def trimLeftList (l : List Char) : List Char :=
  l.dropWhile isWs

/-- Right half of JS `trim`. -/
def trimRightList (l : List Char) : List Char :=
  (l.reverse.dropWhile isWs).reverse

/-- JS `String.prototype.trim` on a character list. -/
def jsTrim (l : List Char) : List Char :=
  trimLeftList (trimRightList l)

/-- The character for a decimal digit. -/
def decDigitChar (d : ℕ) : Char :=
  Char.ofNat (48 + d % 10)

/-- Decimal digit characters of a natural number, most significant
first. -/
def natDecimal (n : ℕ) : List Char :=
  if n = 0 then ['0'] else ((Nat.digits 10 n).map decDigitChar).reverse

/-- Size of the leading digit group when grouping `n` digits by
thousands. -/
def groupHead (n : ℕ) : ℕ :=
  if n % 3 = 0 then 3 else n % 3

/-- Insert thousands separators: a leading group of `groupHead` digits,
then a comma before every further group of three. -/
def group3 (l : List Char) : List Char :=
  if _h : l.length ≤ 3 then l
  else
    l.take (groupHead l.length) ++ ',' :: group3 (l.drop (groupHead l.length))
termination_by l.length
decreasing_by
  simp only [List.length_drop]
  have h1 : 1 ≤ groupHead l.length := by
    unfold groupHead
    split <;> omega
  omega

/-- JS `Number.prototype.toLocaleString` on a natural number with the
default locale: decimal digits grouped by thousands with commas. -/
def toLocaleString (n : ℕ) : List Char :=
  group3 (natDecimal n)

/-- `formatAmount` from `frontend/src/lib/shared/utils/index.ts`,
amounts modelled as integers (Korean-won amounts are integral): zero is
special-cased, the absolute value selects the 조 / 억 / 만 / plain branch,
and the sign character is prepended before the 조 and 억 templates are
trimmed. -/
def formatAmount (value : ℤ) : List Char :=
  if value = 0 then ['0']
  else
    let absValue : ℕ := value.natAbs
    let sign : List Char := if value < 0 then ['-'] else []
    if absValue ≥ 1000000000000 then
      let jo := absValue / 1000000000000
      let eok := absValue % 1000000000000 / 100000000
      jsTrim (sign ++ toLocaleString jo ++ "조 ".toList ++
        (if eok > 0 then toLocaleString eok ++ "억".toList else []))
    else if absValue ≥ 100000000 then
      let eok := absValue / 100000000
      let man := absValue % 100000000 / 10000
      jsTrim (sign ++ toLocaleString eok ++ "억 ".toList ++
        (if man > 0 then toLocaleString man ++ "만".toList else []))
    else if absValue ≥ 10000 then
      let man := absValue / 10000
      sign ++ toLocaleString man ++ "만".toList
    else
      sign ++ toLocaleString absValue

end AmountFormat

theorem screener_bandRank_getScoreColor (s : ℚ) :
    ScreenerV2.bandRank (ScreenerV2.getScoreColor s) = ScreenerV2.scoreRank s := by
  unfold ScreenerV2.getScoreColor ScreenerV2.scoreRank
  split_ifs <;> decide

theorem screener_scoreRank_mono {s t : ℚ} (h : s ≤ t) :
    ScreenerV2.scoreRank s ≤ ScreenerV2.scoreRank t := by
  unfold ScreenerV2.scoreRank
  split_ifs <;> first | decide | (exfalso; linarith)

/-- C1: when `filter_passed` is false the company analysis page displays a
total score of exactly 0 and the disqualified signal (badge class
`signal-disqualified`), while the computed total score is retained
unchanged in the analysis record. -/
theorem filter_failed_displays_zero_and_disqualified
    (a : CompanyV2.AnalysisData) (passed : Bool) (reasons : List String)
    (h : passed = false) :
    CompanyV2.displayedScore (CompanyV2.applyFilterClassifier a passed reasons) = 0 ∧
    (CompanyV2.applyFilterClassifier a passed reasons).signal = "투자부적격" ∧
    CompanyV2.getSignalColor
        (CompanyV2.applyFilterClassifier a passed reasons).signal
      = "signal-disqualified" ∧
    (CompanyV2.applyFilterClassifier a passed reasons).total_score
      = a.total_score := by
  subst h
  refine ⟨?_, ?_, ?_, ?_⟩ <;>
    simp [CompanyV2.displayedScore, CompanyV2.applyFilterClassifier,
      CompanyV2.getSignalColor]

theorem filter_failed_displays_zero_and_disqualified_witness :
    CompanyV2.displayedScore (CompanyV2.applyFilterClassifier
      ⟨"00126380", "삼성전자", "2023", "CFS", 87, "매수", "추천", true, [], [],
        "2024-01-01"⟩ false ["이자보상배율 1.0 미만"]) = 0 ∧
    (CompanyV2.applyFilterClassifier
      ⟨"00126380", "삼성전자", "2023", "CFS", 87, "매수", "추천", true, [], [],
        "2024-01-01"⟩ false ["이자보상배율 1.0 미만"]).signal = "투자부적격" ∧
    CompanyV2.getSignalColor (CompanyV2.applyFilterClassifier
      ⟨"00126380", "삼성전자", "2023", "CFS", 87, "매수", "추천", true, [], [],
        "2024-01-01"⟩ false ["이자보상배율 1.0 미만"]).signal
      = "signal-disqualified" ∧
    (CompanyV2.applyFilterClassifier
      ⟨"00126380", "삼성전자", "2023", "CFS", 87, "매수", "추천", true, [], [],
        "2024-01-01"⟩ false ["이자보상배율 1.0 미만"]).total_score = 87 :=
  filter_failed_displays_zero_and_disqualified
    ⟨"00126380", "삼성전자", "2023", "CFS", 87, "매수", "추천", true, [], [],
      "2024-01-01"⟩ false ["이자보상배율 1.0 미만"] rfl

/-- C2: the screener maps the total score to a band via the fixed
thresholds 90 / 80 / 65 / 50 / 35 (below 35 the worst band); the mapping
is monotonic in the score and deterministic on identical inputs. -/
theorem screener_score_band_mapping :
    (∀ s : ℚ, 90 ≤ s → ScreenerV2.getScoreColor s = "score-s") ∧
    (∀ s : ℚ, 80 ≤ s → s < 90 → ScreenerV2.getScoreColor s = "score-excellent") ∧
    (∀ s : ℚ, 65 ≤ s → s < 80 → ScreenerV2.getScoreColor s = "score-good") ∧
    (∀ s : ℚ, 50 ≤ s → s < 65 → ScreenerV2.getScoreColor s = "score-average") ∧
    (∀ s : ℚ, 35 ≤ s → s < 50 → ScreenerV2.getScoreColor s = "score-poor") ∧
    (∀ s : ℚ, s < 35 → ScreenerV2.getScoreColor s = "score-bad") ∧
    (∀ s t : ℚ, s ≤ t →
      ScreenerV2.bandRank (ScreenerV2.getScoreColor s)
        ≤ ScreenerV2.bandRank (ScreenerV2.getScoreColor t)) ∧
    (∀ s t : ℚ, s = t → ScreenerV2.getScoreColor s = ScreenerV2.getScoreColor t) := by
  refine ⟨?_, ?_, ?_, ?_, ?_, ?_, ?_, ?_⟩
  · intro s h
    unfold ScreenerV2.getScoreColor
    split_ifs <;> first | rfl | linarith
  · intro s h h'
    unfold ScreenerV2.getScoreColor
    split_ifs <;> first | rfl | linarith
  · intro s h h'
    unfold ScreenerV2.getScoreColor
    split_ifs <;> first | rfl | linarith
  · intro s h h'
    unfold ScreenerV2.getScoreColor
    split_ifs <;> first | rfl | linarith
  · intro s h h'
    unfold ScreenerV2.getScoreColor
    split_ifs <;> first | rfl | linarith
  · intro s h
    unfold ScreenerV2.getScoreColor
    split_ifs <;> first | rfl | linarith
  · intro s t h
    rw [screener_bandRank_getScoreColor, screener_bandRank_getScoreColor]
    exact screener_scoreRank_mono h
  · intro s t h
    rw [h]

theorem screener_score_band_mapping_witness :
    ScreenerV2.getScoreColor 92 = "score-s" :=
  screener_score_band_mapping.1 92 (by norm_num)

/-- C3: the interest-coverage calculator is total: on a missing or zero
interest-expense denominator it returns the 999 sentinel rather than
failing, and the display layer renders that sentinel as the capped ratio
string and the infinity glyph. -/
theorem interest_coverage_total_sentinel (raw : IndicatorCalc.RawStatement)
    (h : raw.interest_expense = none ∨ raw.interest_expense = some 0) :
    IndicatorCalc.interestCoverage raw = 999 ∧
    Utils.formatRatio (IndicatorCalc.interestCoverage raw) = "999+배" ∧
    (∀ ind : CompanyV2.Indicator,
      ind.value = IndicatorCalc.interestCoverage raw →
      CompanyV2.formatValue ind = "∞") := by
  have hv : IndicatorCalc.interestCoverage raw = 999 := by
    rcases h with h | h <;> simp [IndicatorCalc.interestCoverage, h]
  refine ⟨hv, ?_, ?_⟩
  · rw [hv]
    simp [Utils.formatRatio]
  · intro ind hind
    rw [hv] at hind
    simp [CompanyV2.formatValue, hind]

theorem interest_coverage_total_sentinel_witness :
    IndicatorCalc.interestCoverage ⟨none, none, some 300, some 0, none, none⟩ = 999 ∧
    Utils.formatRatio
      (IndicatorCalc.interestCoverage ⟨none, none, some 300, some 0, none, none⟩)
      = "999+배" ∧
    (∀ ind : CompanyV2.Indicator,
      ind.value =
        IndicatorCalc.interestCoverage ⟨none, none, some 300, some 0, none, none⟩ →
      CompanyV2.formatValue ind = "∞") :=
  interest_coverage_total_sentinel ⟨none, none, some 300, some 0, none, none⟩
    (Or.inr rfl)

/-- C5: with year 2023, basis CFS, limit 100, a scan with `use_cache`
false populates the cache and reports `from_cache = false`, and an
immediately following scan with `use_cache` true returns the identical
core result with `from_cache = true`. -/
theorem scan_cache_roundtrip {α : Type} (compute : ScreenerCache.ScanParams → α) :
    (ScreenerCache.scan compute [] ⟨"2023", "CFS", 100⟩ false).1.from_cache
        = false ∧
    (ScreenerCache.scan compute
        (ScreenerCache.scan compute [] ⟨"2023", "CFS", 100⟩ false).2
        ⟨"2023", "CFS", 100⟩ true).1.from_cache = true ∧
    (ScreenerCache.scan compute
        (ScreenerCache.scan compute [] ⟨"2023", "CFS", 100⟩ false).2
        ⟨"2023", "CFS", 100⟩ true).1.core
      = (ScreenerCache.scan compute [] ⟨"2023", "CFS", 100⟩ false).1.core := by
  refine ⟨rfl, ?_, ?_⟩ <;> simp [ScreenerCache.scan, List.find?]

/-- C4: in every backtest run, `valid_stocks` is at most `top_n`; a pick
with no price data carries an error string and contributes no return
rate (so it is excluded from the aggregates, which are computed over
priced stocks only); and `win_rate` is `win_count / valid_stocks` when
some stock is priced and `0` (not NaN) when none is. -/
theorem backtest_validate_properties (ranked : List Backtest.Pick) (top_n : ℕ)
    (prices : String → Option (ℚ × ℚ)) (kospi : ℚ) :
    (Backtest.validate ranked top_n prices kospi).statistics.valid_stocks ≤ top_n ∧
    (∀ o ∈ (Backtest.validate ranked top_n prices kospi).stocks,
      prices o.stock_code = none →
        o.error = some "가격 데이터 없음" ∧ o.return_rate = none) ∧
    (0 < (Backtest.validate ranked top_n prices kospi).statistics.valid_stocks →
      (Backtest.validate ranked top_n prices kospi).statistics.win_rate =
        ((Backtest.validate ranked top_n prices kospi).statistics.win_count : ℚ) /
          ((Backtest.validate ranked top_n prices kospi).statistics.valid_stocks : ℚ)) ∧
    ((Backtest.validate ranked top_n prices kospi).statistics.valid_stocks = 0 →
      (Backtest.validate ranked top_n prices kospi).statistics.win_rate = 0) := by
  refine ⟨?_, ?_, ?_, ?_⟩
  · simp only [Backtest.validate]
    calc (((ranked.take top_n).map (Backtest.evalStock prices)).filterMap
            (fun o => o.return_rate)).length
        ≤ ((ranked.take top_n).map (Backtest.evalStock prices)).length :=
          List.length_filterMap_le _ _
      _ = (ranked.take top_n).length := List.length_map _ _
      _ ≤ top_n := List.length_take_le _ _
  · intro o ho hpr
    simp only [Backtest.validate, List.mem_map] at ho
    obtain ⟨p, _, rfl⟩ := ho
    have hsc : (Backtest.evalStock prices p).stock_code = p.stock_code := by
      unfold Backtest.evalStock
      cases prices p.stock_code with
      | none => rfl
      | some pr =>
        obtain ⟨b, s⟩ := pr
        rfl
    rw [hsc] at hpr
    unfold Backtest.evalStock
    rw [hpr]
    exact ⟨rfl, rfl⟩
  · intro h
    simp only [Backtest.validate] at h ⊢
    rw [if_pos h]
  · intro h
    simp only [Backtest.validate] at h ⊢
    rw [if_neg (by omega)]

theorem backtest_validate_properties_witness :
    (Backtest.validate [⟨"c1", "n1", "s1", 90⟩, ⟨"c2", "n2", "s2", 80⟩] 2
        (fun t => if t = "s1" then some (100, 150) else none) 5).statistics.valid_stocks
      ≤ 2 ∧
    (0 < (Backtest.validate [⟨"c1", "n1", "s1", 90⟩, ⟨"c2", "n2", "s2", 80⟩] 2
        (fun t => if t = "s1" then some (100, 150) else none) 5).statistics.valid_stocks →
      (Backtest.validate [⟨"c1", "n1", "s1", 90⟩, ⟨"c2", "n2", "s2", 80⟩] 2
          (fun t => if t = "s1" then some (100, 150) else none) 5).statistics.win_rate =
        ((Backtest.validate [⟨"c1", "n1", "s1", 90⟩, ⟨"c2", "n2", "s2", 80⟩] 2
            (fun t => if t = "s1" then some (100, 150) else none) 5).statistics.win_count : ℚ) /
          ((Backtest.validate [⟨"c1", "n1", "s1", 90⟩, ⟨"c2", "n2", "s2", 80⟩] 2
              (fun t => if t = "s1" then some (100, 150) else none) 5).statistics.valid_stocks : ℚ)) :=
  ⟨(backtest_validate_properties [⟨"c1", "n1", "s1", 90⟩, ⟨"c2", "n2", "s2", 80⟩] 2
      (fun t => if t = "s1" then some (100, 150) else none) 5).1,
   (backtest_validate_properties [⟨"c1", "n1", "s1", 90⟩, ⟨"c2", "n2", "s2", 80⟩] 2
      (fun t => if t = "s1" then some (100, 150) else none) 5).2.2.1⟩

/-- C6 counterexample: the signal taxonomy is not the claimed closed
enum: the display dictionary has an explicit entry for the signal value
`caution`, which is outside the claimed set, and the screener's signal
classifier branches on Korean presentation labels — it recognises the
label `강력매수` but sends the enum-style identifier `strong_buy` to the
neutral default. -/
theorem signal_closed_enum_counterexample :
    Utils.signalToKorean "caution" = "주의" ∧
    "caution" ∈ Utils.signalMappingKeys ∧
    "caution" ∉ claimedSignalEnum ∧
    ScreenerV2.getSignalColor "강력매수" = "signal-strong-buy" ∧
    ScreenerV2.getSignalColor "strong_buy" = "signal-neutral" := by
  refine ⟨?_, ?_, ?_, ?_, ?_⟩ <;> decide

/-- C6 amended: the signal values handled by the code form an open,
string-based taxonomy: the display dictionary covers exactly
`strong_buy, buy, hold, caution, sell, strong_sell` — including
`caution`, excluding `disqualified` — and passes every unknown value
through unchanged, while the screener classifies signals by substring
tests on Korean presentation labels (recognising `강력매수` and
`투자부적격` but not the identifier `strong_buy`). -/
theorem signal_taxonomy_open_strings :
    "caution" ∈ Utils.signalMappingKeys ∧
    "disqualified" ∉ Utils.signalMappingKeys ∧
    (∀ s : String, s ∉ Utils.signalMappingKeys → Utils.signalToKorean s = s) ∧
    ScreenerV2.getSignalColor "강력매수" = "signal-strong-buy" ∧
    ScreenerV2.getSignalColor "투자부적격" = "signal-disqualified" ∧
    ScreenerV2.getSignalColor "strong_buy" = "signal-neutral" := by
  refine ⟨by decide, by decide, ?_, by decide, by decide, by decide⟩
  intro s hs
  simp only [Utils.signalMappingKeys, List.mem_cons, List.not_mem_nil, or_false,
    not_or] at hs
  obtain ⟨h1, h2, h3, h4, h5, h6⟩ := hs
  simp [Utils.signalToKorean, h1, h2, h3, h4, h5, h6]

theorem signal_taxonomy_open_strings_witness :
    Utils.signalToKorean "mystery_signal" = "mystery_signal" :=
  signal_taxonomy_open_strings.2.2.1 "mystery_signal" (by decide)

theorem dilutionRatioValue_concrete :
    Dilution.dilutionRatioValue 50000 1000000 = 5 := by
  unfold Dilution.dilutionRatioValue
  norm_num

theorem dilutionBand_five : Dilution.dilutionBand 5 = none := by
  unfold Dilution.dilutionBand
  norm_num

/-- C7 counterexample: convertible_shares 50000 over total_shares 1000000
gives a dilution ratio of exactly 5.0%, and under the band table of
`src/README.md` (0% best, under 5% tolerable, 10% or more caution) the
value 5.0% is not in the caution band. -/
theorem dilution_five_percent_not_caution :
    Dilution.dilutionRatioValue 50000 1000000 = 5 ∧
    Dilution.dilutionBand (Dilution.dilutionRatioValue 50000 1000000)
      ≠ some Dilution.Band.caution := by
  refine ⟨dilutionRatioValue_concrete, ?_⟩
  rw [dilutionRatioValue_concrete, dilutionBand_five]
  simp

/-- C7 amended: the dilution ratio computed from convertible_shares 50000
and total_shares 1000000 is 5.0%, which is not in the best band (that is
reserved for 0%) and also not in the tolerable under-5% band; but it lies
below the 10% threshold at which the README band table starts the caution
band, so it falls in the gap the table leaves unlabelled rather than in
the caution band. -/
theorem dilution_five_percent_unlabelled :
    Dilution.dilutionRatioValue 50000 1000000 = 5 ∧
    Dilution.dilutionBand (Dilution.dilutionRatioValue 50000 1000000)
      ≠ some Dilution.Band.best ∧
    Dilution.dilutionBand (Dilution.dilutionRatioValue 50000 1000000) = none := by
  refine ⟨dilutionRatioValue_concrete, ?_, ?_⟩ <;>
    rw [dilutionRatioValue_concrete, dilutionBand_five] <;> simp

/-- C8: the API client's `request` never lets a network failure, JSON
parse failure, or non-2xx status escape: in every failure case it
resolves to `{success: false, message: <error text>, data: null}`. -/
theorem request_total_on_failure {α : Type} (outcome : ApiClient.FetchOutcome α)
    (h : ApiClient.isFailure outcome = true) :
    ApiClient.request outcome =
      ⟨false, ApiClient.failureMessage outcome, none⟩ := by
  cases outcome with
  | netError msg => cases msg <;> rfl
  | response ok status body =>
    cases ok with
    | false => cases body <;> rfl
    | true =>
      cases body with
      | error msg => rfl
      | ok r => simp [ApiClient.isFailure] at h

theorem request_total_on_failure_witness :
    ApiClient.request (ApiClient.FetchOutcome.netError (α := Unit)
        (some "network down")) =
      ⟨false, "network down", none⟩ :=
  request_total_on_failure _ rfl

theorem watchlist_add_nodup (c n s t : String)
    (list : List Watchlist.WatchlistItem)
    (h : (list.map Watchlist.WatchlistItem.corp_code).Nodup) :
    (((Watchlist.addToWatchlist c n s t list).2).map
      Watchlist.WatchlistItem.corp_code).Nodup := by
  unfold Watchlist.addToWatchlist
  by_cases hc : list.any (fun i => i.corp_code = c) = true
  · rw [if_pos hc]
    exact h
  · rw [if_neg hc]
    rw [List.map_append]
    refine List.Nodup.append h (List.nodup_singleton c) ?_
    intro a ha ha'
    simp only [List.map_cons, List.map_nil, List.mem_singleton] at ha'
    subst ha'
    simp only [List.mem_map] at ha
    obtain ⟨i, hi, hic⟩ := ha
    have : list.any (fun i => i.corp_code = a) = true := by
      simp only [List.any_eq_true, decide_eq_true_eq]
      exact ⟨i, hi, hic⟩
    exact hc this

theorem watchlist_remove_nodup (c : String)
    (list : List Watchlist.WatchlistItem)
    (h : (list.map Watchlist.WatchlistItem.corp_code).Nodup) :
    ((Watchlist.removeFromWatchlist c list).map
      Watchlist.WatchlistItem.corp_code).Nodup := by
  unfold Watchlist.removeFromWatchlist
  exact h.sublist ((List.filter_sublist list).map Watchlist.WatchlistItem.corp_code)

/-- C9: `addToWatchlist` returns false and leaves the stored list
unchanged when an item with the same corp_code is present, otherwise
appends exactly one item and returns true; consequently the corp_code
values remain pairwise distinct under any sequence of add and remove
calls starting from a duplicate-free list. -/
theorem watchlist_add_remove_invariants :
    (∀ (list : List Watchlist.WatchlistItem) (c n s t : String),
      (∃ i ∈ list, i.corp_code = c) →
        Watchlist.addToWatchlist c n s t list = (false, list)) ∧
    (∀ (list : List Watchlist.WatchlistItem) (c n s t : String),
      (∀ i ∈ list, i.corp_code ≠ c) →
        Watchlist.addToWatchlist c n s t list = (true, list ++ [⟨c, n, s, t⟩])) ∧
    (∀ (ops : List Watchlist.Op) (init : List Watchlist.WatchlistItem),
      (init.map Watchlist.WatchlistItem.corp_code).Nodup →
      ((Watchlist.run ops init).map Watchlist.WatchlistItem.corp_code).Nodup) := by
  refine ⟨?_, ?_, ?_⟩
  · intro list c n s t h
    have hc : list.any (fun i => i.corp_code = c) = true := by
      simp only [List.any_eq_true, decide_eq_true_eq]
      exact h
    simp [Watchlist.addToWatchlist, hc]
  · intro list c n s t h
    have hc : list.any (fun i => i.corp_code = c) = false := by
      simp only [List.any_eq_false, decide_eq_true_eq]
      exact h
    simp [Watchlist.addToWatchlist, hc]
  · intro ops
    induction ops with
    | nil =>
      intro init h
      exact h
    | cons op rest ih =>
      intro init h
      cases op with
      | add c n s t =>
        exact ih _ (watchlist_add_nodup c n s t init h)
      | remove c =>
        exact ih _ (watchlist_remove_nodup c init h)

theorem watchlist_add_remove_invariants_witness :
    ((Watchlist.run
        [Watchlist.Op.add "00126380" "삼성전자" "005930" "t1",
         Watchlist.Op.add "00126380" "삼성전자" "005930" "t2",
         Watchlist.Op.remove "00164742"]
        []).map Watchlist.WatchlistItem.corp_code).Nodup :=
  watchlist_add_remove_invariants.2.2
    [Watchlist.Op.add "00126380" "삼성전자" "005930" "t1",
     Watchlist.Op.add "00126380" "삼성전자" "005930" "t2",
     Watchlist.Op.remove "00164742"]
    [] (by simp)

theorem dropWhile_append_last (p : Char → Bool) (c : Char) (h : p c = false)
    (m : List Char) : (m ++ [c]).dropWhile p = m.dropWhile p ++ [c] := by
  induction m with
  | nil => simp [List.dropWhile, h]
  | cons a m' ih =>
    by_cases ha : p a = true
    · simp [List.dropWhile_cons, ha, ih]
    · simp [List.dropWhile_cons, ha]

theorem trimRightList_cons (c : Char) (l : List Char)
    (h : AmountFormat.isWs c = false) :
    AmountFormat.trimRightList (c :: l) = c :: AmountFormat.trimRightList l := by
  unfold AmountFormat.trimRightList
  rw [List.reverse_cons, dropWhile_append_last _ _ h, List.reverse_append]
  simp

theorem jsTrim_cons (c : Char) (l : List Char)
    (h : AmountFormat.isWs c = false) :
    AmountFormat.jsTrim (c :: l) = c :: AmountFormat.trimRightList l := by
  unfold AmountFormat.jsTrim
  rw [trimRightList_cons c l h]
  unfold AmountFormat.trimLeftList
  simp [List.dropWhile_cons, h]

theorem jsTrim_dash (c : Char) (l : List Char)
    (h : AmountFormat.isWs c = false) :
    AmountFormat.jsTrim ('-' :: c :: l) = '-' :: AmountFormat.jsTrim (c :: l) := by
  rw [jsTrim_cons '-' (c :: l) (by decide), trimRightList_cons c l h,
    jsTrim_cons c l h]

theorem decDigitChar_not_ws (d : ℕ) :
    AmountFormat.isWs (AmountFormat.decDigitChar d) = false := by
  unfold AmountFormat.decDigitChar
  have h : d % 10 < 10 := Nat.mod_lt d (by norm_num)
  set m := d % 10 with hm
  interval_cases m <;> decide

theorem natDecimal_head (n : ℕ) :
    ∃ c t, AmountFormat.natDecimal n = c :: t ∧ AmountFormat.isWs c = false := by
  by_cases h : n = 0
  · exact ⟨'0', [], by simp [AmountFormat.natDecimal, h], by decide⟩
  · have hd : Nat.digits 10 n ≠ [] := Nat.digits_ne_nil_iff_ne_zero.mpr h
    have hne : ((Nat.digits 10 n).map AmountFormat.decDigitChar).reverse ≠ [] := by
      simp [hd]
    obtain ⟨c, t, hct⟩ := List.exists_cons_of_ne_nil hne
    refine ⟨c, t, by simp [AmountFormat.natDecimal, h, hct], ?_⟩
    have hc : c ∈ ((Nat.digits 10 n).map AmountFormat.decDigitChar).reverse := by
      rw [hct]
      exact List.mem_cons_self c t
    simp only [List.mem_reverse, List.mem_map] at hc
    obtain ⟨d, _, rfl⟩ := hc
    exact decDigitChar_not_ws d

theorem group3_cons (c : Char) (l : List Char) :
    ∃ t, AmountFormat.group3 (c :: l) = c :: t := by
  rw [AmountFormat.group3]
  by_cases h : (c :: l).length ≤ 3
  · rw [dif_pos h]
    exact ⟨l, rfl⟩
  · rw [dif_neg h]
    have h1 : 1 ≤ AmountFormat.groupHead (c :: l).length := by
      unfold AmountFormat.groupHead
      split <;> omega
    obtain ⟨k, hk⟩ : ∃ k, AmountFormat.groupHead (c :: l).length = k + 1 :=
      ⟨AmountFormat.groupHead (c :: l).length - 1, by omega⟩
    rw [hk, List.take_succ_cons, List.cons_append]
    exact ⟨_, rfl⟩

theorem toLocaleString_head (n : ℕ) :
    ∃ c t, AmountFormat.toLocaleString n = c :: t ∧ AmountFormat.isWs c = false := by
  obtain ⟨c, t, hct, hws⟩ := natDecimal_head n
  obtain ⟨t', ht'⟩ := group3_cons c t
  refine ⟨c, t', ?_, hws⟩
  rw [AmountFormat.toLocaleString, hct, ht']

/-- C10: `formatAmount` is odd with respect to sign: zero formats as the
single character `0`, and for every positive amount the formatted string
of its negation is exactly the minus character followed by the formatted
string of the amount itself. -/
theorem formatAmount_sign_odd :
    AmountFormat.formatAmount 0 = ['0'] ∧
    ∀ v : ℤ, 0 < v →
      AmountFormat.formatAmount (-v) = '-' :: AmountFormat.formatAmount v := by
  refine ⟨rfl, ?_⟩
  intro v hv
  have h1 : ¬(-v = 0) := by omega
  have h2 : ¬(v = 0) := by omega
  have h3 : -v < 0 := by omega
  have h4 : ¬(v < 0) := by omega
  simp only [AmountFormat.formatAmount, Int.natAbs_neg, h1, h2, h3, h4,
    if_true, if_false, ite_true, ite_false]
  by_cases hc1 : v.natAbs ≥ 1000000000000
  · simp only [hc1, if_true, ite_true]
    obtain ⟨c, t, hct, hws⟩ := toLocaleString_head (v.natAbs / 1000000000000)
    rw [hct]
    simp only [List.cons_append, List.nil_append, List.append_assoc,
      List.singleton_append]
    exact jsTrim_dash c _ hws
  · simp only [hc1, if_false, ite_false]
    by_cases hc2 : v.natAbs ≥ 100000000
    · simp only [hc2, if_true, ite_true]
      obtain ⟨c, t, hct, hws⟩ := toLocaleString_head (v.natAbs / 100000000)
      rw [hct]
      simp only [List.cons_append, List.nil_append, List.append_assoc,
        List.singleton_append]
      exact jsTrim_dash c _ hws
    · simp only [hc2, if_false, ite_false]
      by_cases hc3 : v.natAbs ≥ 10000
      · simp only [hc3, if_true, ite_true]
        simp
      · simp only [hc3, if_false, ite_false]
        simp

theorem formatAmount_sign_odd_witness :
    AmountFormat.formatAmount (-1234567890) =
      '-' :: AmountFormat.formatAmount 1234567890 :=
  formatAmount_sign_odd.2 1234567890 (by norm_num)
